import Mathlib

/-!
Shallow embedding of veezhang/graceful-termination-examples.

The repository holds three Go demo programs for graceful termination of an
HTTP server that dispatches background jobs from its handler:

* `part_000` ("simple graceful"): handler does `wg.Add(3)` then spawns three
  `slowJob`s; after receiving a signal, main calls `httpServer.Shutdown` with
  a 5s context and then `wg.Wait()` with no deadline.
* `part_001` ("wait with timeout"): handler does `wg.Add(4)` then spawns four
  jobs (the fourth sleeps `time.Hour`); after `Shutdown`, main builds
  `ctxJobs, cancelJobs := context.WithTimeout(Background, gracePeriod)`,
  spawns a goroutine doing `wg.Wait(); cancelJobs()`, and runs
  `select { case <-ctxJobs.Done(): ...finished... case <-time.After(gracePeriod): ...timeout... }`.
* `go/wrong-simply/main.go`: handler spawns jobs without any tracking and the
  process installs no signal handler at all.

Times are modelled in whole seconds as naturals.  Each definition below names
the source construct it embeds.
-/

namespace GracefulTermination

/-! ## Work tracker (sync.WaitGroup) as used by part_001 -/

/-- State of the WaitGroup as driven by part_001: `counter` is the WaitGroup
counter (an integer, since `Done` decrements), `pending` the number of
spawned `slowJob` goroutines that have not yet run their deferred
`wg.Done()`. -/
structure TrackState where
  counter : Int
  pending : Nat
deriving DecidableEq

/-- Transitions the program part_001 can perform on the WaitGroup.
`request` is `ServeHTTP`: `wg.Add(4)` executed before the four `go` statements,
so the counter increment and the four pending jobs appear atomically from the
tracker's point of view.  `jobDone` is one spawned job running its deferred
`wg.Done()`; it requires a pending job to exist, since only spawned jobs call
`Done`. -/
inductive TrackStep : TrackState → TrackState → Prop
  | request (s : TrackState) : TrackStep s ⟨s.counter + 4, s.pending + 4⟩
  | jobDone (s : TrackState) (h : 0 < s.pending) :
      TrackStep s ⟨s.counter - 1, s.pending - 1⟩

/-- States reachable from the initial WaitGroup state (counter 0, no jobs). -/
inductive Reachable : TrackState → Prop
  | init : Reachable ⟨0, 0⟩
  | step {s t : TrackState} : Reachable s → TrackStep s t → Reachable t

/-- Observable events of one `slowJob` goroutine (part_001 lines 34-39). -/
inductive JobEv
  | logStart
  | logFinish
  | wgDone
deriving DecidableEq

/-- Whether the job body runs to completion or terminates abnormally. -/
inductive BodyOutcome
  | normal
  | panicked
deriving DecidableEq

/-- Events emitted by the body of `slowJob` (log start, sleep, log finish);
an abnormal termination cuts the body short. -/
def slowJobBody : BodyOutcome → List JobEv
  | .normal => [.logStart, .logFinish]
  | .panicked => [.logStart]

/-- Go defer semantics: the deferred call runs on every exit path of the
surrounding function, after a normal return and during panic unwinding
alike. -/
def runWithDefer (deferred : JobEv) (body : List JobEv) : List JobEv :=
  body ++ [deferred]

/-- Full event trace of one `slowJob`, which begins with `defer wg.Done()`. -/
def slowJob (o : BodyOutcome) : List JobEv :=
  runWithDefer .wgDone (slowJobBody o)

/-! ## Handler statement order (part_001 `MyHandler.ServeHTTP`, lines 25-32) -/

/-- Statements of `ServeHTTP` in part_001, in program order. -/
inductive HAction
  | writeResponse
  | wgAdd (n : Nat)
  | spawnJob (name : String)
  | ret
deriving DecidableEq

/-- MyHandler.ServeHTTP of part_001: write the response body, `wg.Add(4)`,
spawn the four jobs with `go`, return.  The response bytes are flushed to the
client when the handler returns. -/
def serveHTTP : List HAction :=
  [.writeResponse, .wgAdd 4, .spawnJob "job1", .spawnJob "job2",
   .spawnJob "job3", .spawnJob "job4 very slow", .ret]

/-- Recognises the `go h.slowJob(...)` statements. -/
def isSpawn : HAction → Bool
  | .spawnJob _ => true
  | _ => false

/-- Recognises the `h.wg.Add(n)` statement. -/
def isAdd : HAction → Bool
  | .wgAdd _ => true
  | _ => false

/-- Position of the `wg.Add(4)` call inside `serveHTTP`. -/
def addIdx : Nat := serveHTTP.findIdx isAdd

/-! ## The wait-for-jobs phase of part_001 (lines 93-106) -/

/-- Result the coordinator reports from the wait-for-jobs `select`:
the `<-ctxJobs.Done()` case logs "jobs have finished", the
`<-time.After(gracePeriod)` case logs "wait jobs to finish timeout". -/
inductive WaitResult
  | jobsFinished
  | timedOut
deriving DecidableEq

/-- The grace period hard-coded in part_001: `gracePeriod := 30 * time.Second`,
in seconds. -/
def gracePeriod : Nat := 30

/-- Duration of "job4 very slow" in part_001: `time.Hour`, in seconds. -/
def job4Dur : Nat := 3600

/-- Time at which `ctxJobs.Done()` becomes closed.  `ctxJobs` is created by
`context.WithTimeout(context.Background(), gracePeriod)` at time `ctxStart`,
and a goroutine runs `wg.Wait(); cancelJobs()`, so `Done()` closes at the
earlier of the WaitGroup reaching zero (`jobsZero`, none if never) and the
context's own deadline `ctxStart + grace`. -/
def ctxJobsDoneTime (jobsZero : Option Nat) (ctxStart grace : Nat) : Nat :=
  match jobsZero with
  | some t => min t (ctxStart + grace)
  | none => ctxStart + grace

/-- Time at which the `time.After(gracePeriod)` channel fires; the timer is
armed when the `select` statement is reached, at `selStart`. -/
def timeAfterFire (selStart grace : Nat) : Nat := selStart + grace

/-- Semantics of the two-case Go `select`: each case whose channel is ready at
the earliest ready time may be taken, so the possible outcomes are the cases
whose ready time is no later than the other's. -/
def selectWaitOutcomes (ctxT timerT : Nat) : List WaitResult :=
  (if ctxT ≤ timerT then [WaitResult.jobsFinished] else []) ++
  (if timerT ≤ ctxT then [WaitResult.timedOut] else [])

/-! ## The coordinator sequence and exit codes (part_001 lines 67-109) -/

/-- Outcome of `httpServer.Shutdown(ctxShutDown)`: nil, or an error (the
drain's context deadline being exceeded included). -/
inductive StopResult
  | ok
  | errored
deriving DecidableEq

/-- What main does from the `Shutdown` call on. -/
inductive RunOutcome
  | exited (code : Nat)
  | completedWait (w : WaitResult)
deriving DecidableEq

/-- part_001 main, lines 87-106: on a `Shutdown` error it logs and calls
`os.Exit(1)`; otherwise it runs the wait-for-jobs phase (whose result is `w`)
and falls through to the end of main. -/
def coordinatorRun : StopResult → WaitResult → RunOutcome
  | .errored, _ => .exited 1
  | .ok, w => .completedWait w

/-- Whether the wait-for-jobs phase was reached. -/
def waitPhaseRan : RunOutcome → Bool
  | .exited _ => false
  | .completedWait _ => true

/-- Outcome of `httpServer.ListenAndServe()` in the server goroutine: an
error other than `http.ErrServerClosed` is a startup failure; `ErrServerClosed`
means the listener was closed by `Shutdown`. -/
inductive ListenResult
  | startupFailure
  | closedByShutdown
deriving DecidableEq

/-- Final disposition of the process. -/
structure ProcOutcome where
  exitCode : Nat
  shutdownEntered : Bool
deriving DecidableEq

/-- Whole-process outcome of part_001: a listener startup failure makes the
server goroutine call `os.Exit(1)` before any shutdown work (lines 67-76);
otherwise the coordinator runs, exiting 1 on a `Shutdown` error and falling
off the end of main (exit code 0) after the wait phase. -/
def processOutcome (listen : ListenResult) (stop : StopResult) (w : WaitResult) :
    ProcOutcome :=
  match listen with
  | .startupFailure => ⟨1, false⟩
  | .closedByShutdown =>
    match coordinatorRun stop w with
    | .exited c => ⟨c, true⟩
    | .completedWait _ => ⟨0, true⟩

/-! ## Signal delivery (part_001 lines 78-82) -/

/-- Capacity of `termChan := make(chan os.Signal)`: unbuffered. -/
def termChanCapacity : Nat := 0

/-- Fate of one incoming signal at the channel. -/
inductive Delivery
  | received
  | buffered
  | dropped
deriving DecidableEq

/-- Delivery discipline of `signal.Notify`: the runtime performs a
non-blocking send for each incoming signal, so the signal is handed to a
receiver blocked on the channel, stored if buffer space is free, and dropped
otherwise; a dropped signal is never re-delivered. -/
def notifyDeliver (receiverBlocked : Bool) (queued capacity : Nat) : Delivery :=
  if receiverBlocked then .received
  else if queued < capacity then .buffered
  else .dropped

/-- Whether a signal with this delivery fate ever drives the coordinator:
a received signal does so at once, a buffered one when the coordinator next
receives, a dropped one never. -/
def triggerHonored : Delivery → Bool
  | .received => true
  | .buffered => true
  | .dropped => false

/-- Coordinator control state around `sig := <-termChan`: main performs a
single receive and then runs the shutdown sequence, never returning to the
receive. -/
inductive CoordState
  | waitingTrigger
  | shuttingDown
deriving DecidableEq

/-- Effect of one delivered trigger on the coordinator: the single
`sig := <-termChan` consumes the first trigger and starts the shutdown
sequence (the Bool); afterwards no receiver exists on the unbuffered channel,
so further triggers are dropped and start nothing. -/
def onTrigger : CoordState → CoordState × Bool
  | .waitingTrigger => (.shuttingDown, true)
  | .shuttingDown => (.shuttingDown, false)

/-- Number of shutdown sequences started when `n` triggers are delivered to a
coordinator in state `s`. -/
def countShutdowns : CoordState → Nat → Nat
  | _, 0 => 0
  | s, n + 1 =>
    (if (onTrigger s).2 then 1 else 0) + countShutdowns (onTrigger s).1 n

/-! ## part_000: the unbounded wait variant -/

/-- Time at which the WaitGroup counter returns to zero given the finish time
of every spawned job (`none` for a job that never finishes): the latest finish
time, or never if some job never finishes. -/
def zeroTime : List (Option Nat) → Option Nat
  | [] => some 0
  | none :: _ => none
  | some t :: fs =>
    match zeroTime fs with
    | some m => some (max t m)
    | none => none

/-- part_000 main, lines 92-97: after `Shutdown` succeeds (at
`shutdownDone`), main calls `wg.Wait()` with no deadline and then returns;
the process exit time is when the counter reaches zero, never if it never
does. -/
def mainExitTimeSimple (shutdownDone : Nat) (jobsZero : Option Nat) :
    Option Nat :=
  match jobsZero with
  | some t => some (max shutdownDone t)
  | none => none

/-! ## wrong-simply: no tracking, no signal handler -/

/-- Duration of a `slowJob` in wrong-simply:
`time.Duration(1+rand.Intn(4)) * time.Second`, in seconds, from the random
draw `r`. -/
def slowJobDur (r : Nat) : Nat := 1 + r % 4

/-- wrong-simply installs no signal handler, so the runtime's default action
for SIGINT terminates the process at the moment the signal arrives, with no
drain and no wait phase. -/
def wrongSimplyExitTime (sigTime : Nat) : Nat := sigTime

/-- Number of jobs still running when the process exits: jobs dispatched at
`t0` with the given durations whose finish time is after `exitT`. -/
def outstandingAtExit (t0 : Nat) (durs : List Nat) (exitT : Nat) : Nat :=
  (durs.filter (fun d => exitT < t0 + d)).length

/-! ## Helper lemmas -/

/-- In every reachable WaitGroup state of part_001, the counter equals the
number of spawned jobs that have not yet run their deferred `Done`. -/
theorem reachable_counter_eq_pending (s : TrackState) (h : Reachable s) :
    s.counter = (s.pending : Int) := by
  induction h with
  | init => rfl
  | step _ hstep ih =>
    cases hstep with
    | request => dsimp only; omega
    | jobDone hp => dsimp only; omega

/-- Once the coordinator is shutting down, further triggers start no shutdown
sequence. -/
theorem countShutdowns_shuttingDown (n : Nat) :
    countShutdowns CoordState.shuttingDown n = 0 := by
  induction n with
  | zero => rfl
  | succ k ih => simp [countShutdowns, onTrigger, ih]

/-- If some job never finishes, the WaitGroup counter never returns to
zero. -/
theorem zeroTime_eq_none (fts : List (Option Nat))
    (h : (none : Option Nat) ∈ fts) : zeroTime fts = none := by
  induction fts with
  | nil => cases h
  | cons f fs ih =>
    rcases List.mem_cons.mp h with h1 | h2
    · rw [← h1]
      rfl
    · cases f with
      | none => rfl
      | some t =>
        simp [zeroTime, ih h2]

/-! ## Claims -/

/-- C1: the claim states that after the listener stop phase the coordinator
always runs the wait-for-work phase, regardless of the stop phase's outcome.
This is false for part_001: at the concrete input where `Shutdown` returns an
error, main calls `os.Exit(1)` and the wait phase never runs. -/
theorem stop_error_skips_wait_cex :
    waitPhaseRan (coordinatorRun StopResult.errored WaitResult.timedOut) = false := by
  decide

/-- C1 (amended): the wait-for-work phase runs exactly when the listener stop
phase succeeded; a `Shutdown` error makes the process exit with code 1
immediately, skipping the wait phase. -/
theorem stop_error_exits_without_wait :
    waitPhaseRan (coordinatorRun StopResult.ok WaitResult.jobsFinished) = true ∧
    waitPhaseRan (coordinatorRun StopResult.ok WaitResult.timedOut) = true ∧
    coordinatorRun StopResult.errored WaitResult.jobsFinished = RunOutcome.exited 1 ∧
    coordinatorRun StopResult.errored WaitResult.timedOut = RunOutcome.exited 1 ∧
    waitPhaseRan (RunOutcome.exited 1) = false := by
  decide

/-- C2: in the repository's own scenario (job4 sleeps `time.Hour`, so the
WaitGroup reaches zero at `1 + job4Dur`, long after the grace deadline), the
`ctxJobs` context — created with its own `gracePeriod` timeout at time 3,
before the `select`'s `time.After(gracePeriod)` timer is armed at time 4 —
closes `Done()` at its deadline 33, strictly before the timer fires at 34.
The only possible outcome of the `select` is therefore `jobsFinished`
("jobs have finished"), although work is still outstanding, contradicting the
claim that the wait phase then reports "timed out". -/
theorem wait_phase_misreports_timeout :
    timeAfterFire 4 gracePeriod < 1 + job4Dur ∧
    selectWaitOutcomes (ctxJobsDoneTime (some (1 + job4Dur)) 3 gracePeriod)
        (timeAfterFire 4 gracePeriod) = [WaitResult.jobsFinished] := by
  decide

/-- C3: every reachable WaitGroup state of part_001 has a non-negative
counter (equal to the number of pending jobs), and every `slowJob` emits
exactly one `wg.Done()` — via its `defer`, on a normal and on an abnormal
exit path alike — so every increment of 4 is matched by the four spawned
jobs' single decrements. -/
theorem tracker_count_invariant (s : TrackState) (h : Reachable s) :
    0 ≤ s.counter ∧ s.counter = (s.pending : Int) ∧
      ∀ o, (slowJob o).count JobEv.wgDone = 1 := by
  have he := reachable_counter_eq_pending s h
  refine ⟨by omega, he, fun o => ?_⟩
  cases o <;> decide

/-- C3 witness: the state after one request (`wg.Add(4)`, four pending jobs)
is reachable and satisfies the invariant. -/
theorem tracker_count_invariant_witness :
    Reachable ⟨4, 4⟩ ∧
      (0 ≤ (TrackState.mk 4 4).counter ∧
        (TrackState.mk 4 4).counter = ((TrackState.mk 4 4).pending : Int) ∧
        ∀ o, (slowJob o).count JobEv.wgDone = 1) :=
  have hr : Reachable ⟨4, 4⟩ :=
    Reachable.step Reachable.init (by exact TrackStep.request ⟨0, 0⟩)
  ⟨hr, tracker_count_invariant ⟨4, 4⟩ hr⟩

/-- C4: the process exit code is 0 for a clean shutdown and for a degraded
(grace-period-exceeded) one; a listener startup failure yields exit code 1,
with the shutdown sequence never entered, whatever the other phases would
have done. -/
theorem exit_code_policy :
    (processOutcome ListenResult.closedByShutdown StopResult.ok
        WaitResult.jobsFinished).exitCode = 0 ∧
    (processOutcome ListenResult.closedByShutdown StopResult.ok
        WaitResult.timedOut).exitCode = 0 ∧
    processOutcome ListenResult.startupFailure StopResult.ok
        WaitResult.jobsFinished = ⟨1, false⟩ ∧
    processOutcome ListenResult.startupFailure StopResult.ok
        WaitResult.timedOut = ⟨1, false⟩ ∧
    processOutcome ListenResult.startupFailure StopResult.errored
        WaitResult.jobsFinished = ⟨1, false⟩ ∧
    processOutcome ListenResult.startupFailure StopResult.errored
        WaitResult.timedOut = ⟨1, false⟩ := by
  decide

/-- C5: with a zero grace period and job4 still outstanding, `ctxJobs` —
`context.WithTimeout(Background, 0)` created at time 3 — is already expired
when the `select` is reached at time 4, so its `Done()` is ready strictly
before the `time.After(0)` timer armed at 4; the `select` can only report
`jobsFinished` (the clean result), not the degraded (timed out) result the
claim requires when units are outstanding. -/
theorem zero_grace_misreports :
    selectWaitOutcomes (ctxJobsDoneTime (some (1 + job4Dur)) 3 0)
        (timeAfterFire 4 0) = [WaitResult.jobsFinished] := by
  decide

/-- C6: in `ServeHTTP` of part_001, the `wg.Add(4)` registration is a single
statement that precedes every `go h.slowJob(...)` dispatch and precedes the
handler's return, so registration is synchronous inside the handler and
complete before any concurrent dispatch and before the response is
returned. -/
theorem registration_precedes_dispatch :
    serveHTTP.getD addIdx HAction.ret = HAction.wgAdd 4 ∧
    (∀ k, k < serveHTTP.length →
      isSpawn (serveHTTP.getD k HAction.ret) = true → addIdx < k) ∧
    addIdx < serveHTTP.length - 1 ∧
    serveHTTP.getD (serveHTTP.length - 1) HAction.ret = HAction.ret := by
  decide

/-- C6 witness: the first dispatch statement sits at position 2, after the
registration. -/
theorem registration_precedes_dispatch_witness :
    2 < serveHTTP.length ∧ isSpawn (serveHTTP.getD 2 HAction.ret) = true ∧
      addIdx < 2 :=
  ⟨by decide, by decide,
    registration_precedes_dispatch.2.1 2 (by decide) (by decide)⟩

/-- C7: the claim states that a termination trigger arriving before the
coordinator is blocked on its notification channel is not dropped.  This is
false for part_001: `termChan` is unbuffered (`make(chan os.Signal)`), and
`signal.Notify` performs a non-blocking send, so a signal delivered while no
receiver is blocked — in particular before `serve()` has begun accepting and
before main reaches `sig := <-termChan` — is dropped and never honored. -/
theorem early_trigger_dropped :
    notifyDeliver false 0 termChanCapacity = Delivery.dropped ∧
    triggerHonored (notifyDeliver false 0 termChanCapacity) = false := by
  decide

/-- C8: however many (at least two) termination triggers are delivered,
exactly one shutdown sequence is started: the single `sig := <-termChan`
consumes the first, and triggers arriving during the in-progress shutdown
find no receiver and are ignored. -/
theorem duplicate_triggers_one_shutdown (n : Nat) (h : 2 ≤ n) :
    countShutdowns CoordState.waitingTrigger n = 1 := by
  obtain ⟨k, rfl⟩ : ∃ k, n = k + 1 := ⟨n - 1, by omega⟩
  simp [countShutdowns, onTrigger, countShutdowns_shuttingDown]

/-- C8 witness: two triggers delivered in quick succession drive exactly one
shutdown sequence. -/
theorem duplicate_triggers_one_shutdown_witness :
    2 ≤ 2 ∧ countShutdowns CoordState.waitingTrigger 2 = 1 :=
  ⟨by decide, duplicate_triggers_one_shutdown 2 (by decide)⟩

/-- C9: in wrong-simply, where the handler dispatches jobs without any
tracking and no signal handler is installed, a termination signal arriving at
dispatch time `t0` terminates the process at `t0`, while every dispatched job
(duration `1 + rand.Intn(4)` seconds, hence at least 1) is still
outstanding. -/
theorem untracked_jobs_outstanding (t0 : Nat) (rs : List Nat) (h : rs ≠ []) :
    outstandingAtExit t0 (rs.map slowJobDur) (wrongSimplyExitTime t0)
        = rs.length ∧
    0 < outstandingAtExit t0 (rs.map slowJobDur) (wrongSimplyExitTime t0) := by
  have hfilter : (rs.map slowJobDur).filter
      (fun d => wrongSimplyExitTime t0 < t0 + d) = rs.map slowJobDur := by
    apply List.filter_eq_self.mpr
    intro d hd
    simp only [List.mem_map] at hd
    obtain ⟨r, _, rfl⟩ := hd
    simp only [slowJobDur, wrongSimplyExitTime, decide_eq_true_eq]
    omega
  have h1 : outstandingAtExit t0 (rs.map slowJobDur) (wrongSimplyExitTime t0)
      = rs.length := by
    unfold outstandingAtExit
    rw [hfilter]
    simp
  exact ⟨h1, h1 ▸ List.length_pos.mpr h⟩

/-- C9 witness: three jobs dispatched at time 3 (random draws 0, 1, 3, hence
durations 1, 2, 4) are all outstanding when the untracked process exits at
time 3. -/
theorem untracked_jobs_outstanding_witness :
    ([0, 1, 3] : List Nat) ≠ [] ∧
      (outstandingAtExit 3 (([0, 1, 3] : List Nat).map slowJobDur)
          (wrongSimplyExitTime 3) = ([0, 1, 3] : List Nat).length ∧
        0 < outstandingAtExit 3 (([0, 1, 3] : List Nat).map slowJobDur)
          (wrongSimplyExitTime 3)) :=
  ⟨by decide, untracked_jobs_outstanding 3 [0, 1, 3] (by decide)⟩

/-- C10: in part_000 the wait phase is `wg.Wait()` with no deadline: if some
begun job never finishes, the WaitGroup counter never reaches zero and the
process never exits. -/
theorem unbounded_wait_never_exits (shutdownDone : Nat)
    (fts : List (Option Nat)) (h : (none : Option Nat) ∈ fts) :
    mainExitTimeSimple shutdownDone (zeroTime fts) = none := by
  rw [zeroTime_eq_none fts h]
  rfl

/-- C10 witness: with one job finishing at time 2 and one that never
finishes, the part_000 process never exits. -/
theorem unbounded_wait_never_exits_witness :
    ((none : Option Nat) ∈ [some 2, (none : Option Nat)]) ∧
      mainExitTimeSimple 3 (zeroTime [some 2, (none : Option Nat)]) = none :=
  ⟨by decide, unbounded_wait_never_exits 3 [some 2, none] (by decide)⟩

end GracefulTermination
